import Mathlib

/-
Verification of the contact CRUD service (src/backend/main.py, src/backend/models.py).

The service is a Flask application over a single SQLAlchemy table of contacts.
We embed the persisted table as a list of contact records plus the next
primary-key value, and each request handler as a function from a store, the
parsed request body and a fault flag (modelling an unexpected storage failure
at commit time) to an outcome: either a normal HTTP response (status, message,
resulting persisted store) or an exception escaping the handler uncaught.

Database-level behaviour embedded in the commit step (models.py):
the email column is declared unique, so a commit whose pending table has two
rows with the same email raises IntegrityError; any other storage failure at
commit raises a plain SQLAlchemyError. The first_name, last_name and email
columns are declared not nullable, but every value in this model is a string,
so the NOT NULL constraints never fire here.

A detail of main.py that matters below: on the success path, updata_contact
and delete_contact return jsonify applied to a Python set literal (lines 104
and 127), and sets are not JSON serialisable, so jsonify raises TypeError
after the commit has already persisted the change; Flask turns the uncaught
TypeError into a 500 response. We model this as an uncaught typeError outcome
carrying the committed store.
-/

/-- A persisted contact row (models.py, class Contact). -/
structure Contact where
  id : Nat
  first_name : String
  last_name : String
  email : String
deriving Repr, DecidableEq

/-- The persisted table plus the next auto-assigned primary key. -/
structure Store where
  contacts : List Contact
  nextId : Nat
deriving Repr, DecidableEq

/-- The empty table; SQLite assigns 1 to the first row. -/
def Store.empty : Store := ⟨[], 1⟩

/-- A parsed JSON request body: each of the three recognised keys is either
present with a string value or absent (request.json.get returns None). -/
structure RequestBody where
  firstName : Option String
  lastName : Option String
  email : Option String
deriving Repr, DecidableEq

/-- The empty JSON object as a request body. -/
def RequestBody.empty : RequestBody := ⟨none, none, none⟩

/-- Python truth test used by the create handler (line 57): a field is falsy
when it is absent or the empty string. -/
def falsy : Option String → Bool
  | none => true
  | some s => s = ""

/-- Exceptions that can propagate out of a handler. -/
inductive Exc where
  | integrityError
  | sqlAlchemyError
  | typeError
deriving Repr, DecidableEq

/-- Outcome of one request: a normal response with status code, message and
resulting persisted store, or an exception escaping the handler (Flask then
answers 500); the store component is the persisted state afterwards. -/
inductive Outcome where
  | resp (status : Nat) (message : String) (store : Store)
  | uncaught (e : Exc) (store : Store)
deriving Repr, DecidableEq

/-- The persisted store after the request, whatever the outcome. -/
def Outcome.store : Outcome → Store
  | .resp _ _ s => s
  | .uncaught _ s => s

/-- HTTP status the client observes: the explicit code of a normal response,
or 500 when an exception escapes the handler and Flask answers with an
internal server error. -/
def Outcome.status : Outcome → Nat
  | .resp code _ _ => code
  | .uncaught _ _ => 500

/-- Result of db.session.commit on a pending table state. -/
inductive CommitResult where
  | ok
  | integrityError
  | sqlAlchemyError
deriving Repr, DecidableEq

/-- Commit of a pending table state: the unique constraint on email rejects a
table with two rows sharing an email (IntegrityError); otherwise an injected
environment fault surfaces as a generic SQLAlchemyError; otherwise commit
succeeds. -/
def commit (pending : List Contact) (fault : Bool) : CommitResult :=
  if ¬ (pending.map Contact.email).Nodup then .integrityError
  else if fault then .sqlAlchemyError
  else .ok

/-- Serialised form of a contact (models.py, Contact.to_json). -/
structure ContactJson where
  id : Nat
  firstName : String
  lastName : String
  email : String
deriving Repr, DecidableEq

/-- models.py, Contact.to_json. -/
def Contact.to_json (c : Contact) : ContactJson :=
  ⟨c.id, c.first_name, c.last_name, c.email⟩

/-- GET /contacts (main.py, get_contacts): every row, serialised. -/
def get_contacts (s : Store) : List ContactJson :=
  s.contacts.map Contact.to_json

/-- POST /create_contact (main.py, create_contact): validates that all three
fields are non-falsy, then inserts a row; IntegrityError is caught and mapped
to 400 with rollback, any other SQLAlchemyError to 500 with rollback. -/
def create_contact (s : Store) (body : RequestBody) (fault : Bool) : Outcome :=
  if falsy body.firstName || falsy body.lastName || falsy body.email then
    .resp 400 "You must include a first name, lasat name and email" s
  else
    let new_contact : Contact :=
      ⟨s.nextId, body.firstName.getD "", body.lastName.getD "", body.email.getD ""⟩
    let pending := s.contacts ++ [new_contact]
    match commit pending fault with
    | .integrityError =>
        .resp 400 "Integrity error: a contact with similar details already exists." s
    | .sqlAlchemyError => .resp 500 "Database error occurred." s
    | .ok => .resp 201 "User Created" ⟨pending, s.nextId + 1⟩

/-- Field overriding of the update handler (main.py lines 100 to 102): each
field present in the body replaces the stored value, each absent field keeps
the prior value. -/
def applyBody (b : RequestBody) (c : Contact) : Contact :=
  { c with
    first_name := b.firstName.getD c.first_name
    last_name := b.lastName.getD c.last_name
    email := b.email.getD c.email }

/-- The pending table of an update: the row with the given primary key gets
the body applied, every other row is untouched. -/
def updatedContacts (s : Store) (user_id : Nat) (b : RequestBody) : List Contact :=
  s.contacts.map (fun c => if c.id = user_id then applyBody b c else c)

/-- PATCH /update_contact (main.py, updata_contact): 400 when the id is
unknown; otherwise the row is mutated and committed with no exception
handling, so a failing commit escapes uncaught; on a successful commit the
handler applies jsonify to a set literal, raising TypeError after the change
has persisted. -/
def updata_contact (s : Store) (user_id : Nat) (body : RequestBody)
    (fault : Bool) : Outcome :=
  match s.contacts.find? (fun c => c.id = user_id) with
  | none => .resp 400 "User not found" s
  | some _ =>
    let pending := updatedContacts s user_id body
    match commit pending fault with
    | .integrityError => .uncaught .integrityError s
    | .sqlAlchemyError => .uncaught .sqlAlchemyError s
    | .ok => .uncaught .typeError ⟨pending, s.nextId⟩

/-- DELETE /delete_contact (main.py, delete_contact): 400 when the id is
unknown; otherwise the row is removed and committed with no exception
handling; on a successful commit the handler applies jsonify to a set
literal, raising TypeError after the deletion has persisted. -/
def delete_contact (s : Store) (user_id : Nat) (fault : Bool) : Outcome :=
  match s.contacts.find? (fun c => c.id = user_id) with
  | none => .resp 400 "User not found" s
  | some _ =>
    let pending := s.contacts.filter (fun c => ¬ c.id = user_id)
    match commit pending fault with
    | .integrityError => .uncaught .integrityError s
    | .sqlAlchemyError => .uncaught .sqlAlchemyError s
    | .ok => .uncaught .typeError ⟨pending, s.nextId⟩

/-- States of the persisted table reachable from the empty table through the
three mutating handlers, with arbitrary request bodies and fault injections. -/
inductive Reachable : Store → Prop where
  | init : Reachable Store.empty
  | create (body : RequestBody) (fault : Bool) {s : Store} :
      Reachable s → Reachable (create_contact s body fault).store
  | update (user_id : Nat) (body : RequestBody) (fault : Bool) {s : Store} :
      Reachable s → Reachable (updata_contact s user_id body fault).store
  | delete (user_id : Nat) (fault : Bool) {s : Store} :
      Reachable s → Reachable (delete_contact s user_id fault).store

/-- A contact whose three data fields are all non-empty. -/
def fieldsNonEmpty (c : Contact) : Bool :=
  ¬ c.first_name = "" ∧ ¬ c.last_name = "" ∧ ¬ c.email = ""

/-- A request body whose present fields are all non-empty strings. -/
def presentNonEmpty (b : RequestBody) : Bool :=
  ¬ b.firstName = some "" ∧ ¬ b.lastName = some "" ∧ ¬ b.email = some ""

/-- States reachable when every update request only ever supplies non-empty
field values (the create handler validates this itself, updates do not). -/
inductive ReachableNE : Store → Prop where
  | init : ReachableNE Store.empty
  | create (body : RequestBody) (fault : Bool) {s : Store} :
      ReachableNE s → ReachableNE (create_contact s body fault).store
  | update (user_id : Nat) (body : RequestBody) (fault : Bool) {s : Store} :
      presentNonEmpty body → ReachableNE s →
      ReachableNE (updata_contact s user_id body fault).store
  | delete (user_id : Nat) (fault : Bool) {s : Store} :
      ReachableNE s → ReachableNE (delete_contact s user_id fault).store

/-- A store holding one contact, as after one successful create. -/
def oneContact : Store := ⟨[⟨1, "A", "B", "a@b.com"⟩], 2⟩

/-- A store holding two contacts with distinct emails. -/
def twoContacts : Store := ⟨[⟨1, "A", "B", "a@x"⟩, ⟨2, "C", "D", "b@x"⟩], 3⟩

/-- A store holding a contact with an empty first name. -/
def badStore : Store := ⟨[⟨1, "", "B", "a@b.com"⟩], 2⟩

/-- A successful commit requires the pending table to have pairwise distinct
emails. -/
theorem commit_ok_nodup (p : List Contact) (f : Bool) (h : commit p f = .ok) :
    (p.map Contact.email).Nodup := by
  unfold commit at h
  split at h
  · simp at h
  · next hn => exact not_not.mp hn

theorem store_nodup_create (s : Store) (b : RequestBody) (f : Bool)
    (ih : (s.contacts.map Contact.email).Nodup) :
    ((create_contact s b f).store.contacts.map Contact.email).Nodup := by
  simp only [create_contact]
  split
  · exact ih
  · split
    · exact ih
    · exact ih
    · next heq => exact commit_ok_nodup _ _ heq

theorem store_nodup_update (s : Store) (uid : Nat) (b : RequestBody) (f : Bool)
    (ih : (s.contacts.map Contact.email).Nodup) :
    ((updata_contact s uid b f).store.contacts.map Contact.email).Nodup := by
  simp only [updata_contact]
  split
  · exact ih
  · split
    · exact ih
    · exact ih
    · next heq => exact commit_ok_nodup _ _ heq

theorem store_nodup_delete (s : Store) (uid : Nat) (f : Bool)
    (ih : (s.contacts.map Contact.email).Nodup) :
    ((delete_contact s uid f).store.contacts.map Contact.email).Nodup := by
  simp only [delete_contact]
  split
  · exact ih
  · split
    · exact ih
    · exact ih
    · next heq => exact commit_ok_nodup _ _ heq

theorem getD_ne_empty (o : Option String) (h : falsy o = false) : o.getD "" ≠ "" := by
  cases o with
  | none => simp [falsy] at h
  | some s => simpa [falsy] using h

theorem applyBody_fieldsNonEmpty (b : RequestBody) (c : Contact)
    (hb : presentNonEmpty b) (hc : fieldsNonEmpty c) :
    fieldsNonEmpty (applyBody b c) := by
  obtain ⟨bf, bl, be⟩ := b
  simp only [presentNonEmpty, decide_eq_true_eq, Bool.and_eq_true, decide_not] at hb
  simp only [fieldsNonEmpty, decide_eq_true_eq, Bool.and_eq_true, decide_not] at hc ⊢
  obtain ⟨h1, h2, h3⟩ := hb
  obtain ⟨g1, g2, g3⟩ := hc
  refine ⟨?_, ?_, ?_⟩ <;>
    [cases bf; cases bl; cases be] <;>
    simp_all [applyBody, Option.getD]

theorem fields_create (s : Store) (b : RequestBody) (f : Bool)
    (ih : ∀ c ∈ s.contacts, fieldsNonEmpty c) :
    ∀ c ∈ (create_contact s b f).store.contacts, fieldsNonEmpty c := by
  simp only [create_contact]
  split
  · exact ih
  · next hval =>
    split
    · exact ih
    · exact ih
    · intro c hc
      rcases List.mem_append.mp hc with h | h
      · exact ih c h
      · simp only [List.mem_singleton] at h
        subst h
        have hor := Bool.eq_false_iff.mpr hval
        simp only [Bool.or_eq_false_iff] at hor
        simp only [fieldsNonEmpty, decide_eq_true_eq, Bool.and_eq_true, decide_not]
        exact ⟨getD_ne_empty _ hor.1.1, getD_ne_empty _ hor.1.2, getD_ne_empty _ hor.2⟩

theorem fields_update (s : Store) (uid : Nat) (b : RequestBody) (f : Bool)
    (hb : presentNonEmpty b)
    (ih : ∀ c ∈ s.contacts, fieldsNonEmpty c) :
    ∀ c ∈ (updata_contact s uid b f).store.contacts, fieldsNonEmpty c := by
  simp only [updata_contact]
  split
  · exact ih
  · split
    · exact ih
    · exact ih
    · intro c hc
      obtain ⟨d, hd, hdc⟩ := List.mem_map.mp hc
      by_cases hdu : d.id = uid
      · rw [if_pos hdu] at hdc
        subst hdc
        exact applyBody_fieldsNonEmpty b d hb (ih d hd)
      · rw [if_neg hdu] at hdc
        subst hdc
        exact ih d hd

theorem fields_delete (s : Store) (uid : Nat) (f : Bool)
    (ih : ∀ c ∈ s.contacts, fieldsNonEmpty c) :
    ∀ c ∈ (delete_contact s uid f).store.contacts, fieldsNonEmpty c := by
  simp only [delete_contact]
  split
  · exact ih
  · split
    · exact ih
    · exact ih
    · intro c hc
      exact ih c (List.mem_of_mem_filter hc)

theorem find_id_some {s : Store} {uid : Nat} (h : ∃ c ∈ s.contacts, c.id = uid) :
    ∃ c, s.contacts.find? (fun c => c.id = uid) = some c := by
  cases hfind : s.contacts.find? (fun c => c.id = uid) with
  | some c => exact ⟨c, rfl⟩
  | none =>
    rw [List.find?_eq_none] at hfind
    obtain ⟨c, hc, hcid⟩ := h
    exact absurd (by simp [hcid]) (hfind c hc)

/-- Applying an update body preserves distinctness of emails, provided the
supplied email (when present) does not belong to any row other than the
target. -/
theorem nodup_emails_updatedContacts (uid : Nat) (b : RequestBody) :
    ∀ l : List Contact,
    (l.map Contact.id).Nodup →
    (l.map Contact.email).Nodup →
    (∀ c ∈ l, c.id ≠ uid → some c.email ≠ b.email) →
    ((l.map (fun c => if c.id = uid then applyBody b c else c)).map Contact.email).Nodup := by
  intro l
  induction l with
  | nil => intro _ _ _; simp
  | cons c t ih =>
    intro hids hem hfresh
    rw [List.map_cons, List.nodup_cons] at hids hem
    rw [List.map_cons, List.map_cons, List.nodup_cons]
    by_cases hc : c.id = uid
    · have ht : t.map (fun d => if d.id = uid then applyBody b d else d) = t := by
        have h2 : ∀ d ∈ t, (if d.id = uid then applyBody b d else d) = id d := by
          intro d hd
          have hdu : d.id ≠ uid := by
            intro hdu
            exact hids.1 (List.mem_map.mpr ⟨d, hd, by rw [hdu, hc]⟩)
          rw [if_neg hdu]
          rfl
        rw [List.map_congr_left h2, List.map_id]
      rw [if_pos hc, ht]
      refine ⟨?_, hem.2⟩
      cases hbe : b.email with
      | none =>
          have hae : (applyBody b c).email = c.email := by simp [applyBody, hbe]
          rw [hae]
          exact hem.1
      | some e =>
          have hae : (applyBody b c).email = e := by simp [applyBody, hbe]
          rw [hae]
          intro hmem
          obtain ⟨d, hd, hde⟩ := List.mem_map.mp hmem
          have hdu : d.id ≠ uid := by
            intro hdu
            exact hids.1 (List.mem_map.mpr ⟨d, hd, by rw [hdu, hc]⟩)
          exact hfresh d (List.mem_cons_of_mem _ hd) hdu (by rw [hde, hbe])
    · rw [if_neg hc]
      refine ⟨?_, ih hids.2 hem.2
        (fun d hd hdu => hfresh d (List.mem_cons_of_mem _ hd) hdu)⟩
      intro hmem
      rw [List.map_map] at hmem
      obtain ⟨d, hd, hde⟩ := List.mem_map.mp hmem
      simp only [Function.comp] at hde
      by_cases hdu : d.id = uid
      · rw [if_pos hdu] at hde
        cases hbe : b.email with
        | none =>
            have hae : (applyBody b d).email = d.email := by simp [applyBody, hbe]
            rw [hae] at hde
            exact hem.1 (List.mem_map.mpr ⟨d, hd, hde⟩)
        | some e =>
            have hae : (applyBody b d).email = e := by simp [applyBody, hbe]
            rw [hae] at hde
            exact hfresh c (List.mem_cons_self _ _) hc (by rw [← hde, hbe])
      · rw [if_neg hdu] at hde
        exact hem.1 (List.mem_map.mpr ⟨d, hd, hde⟩)

theorem not_nodup_append_dup (l : List Contact) (c : Contact)
    (h : ∃ d ∈ l, d.email = c.email) :
    ¬ ((l ++ [c]).map Contact.email).Nodup := by
  intro hnd
  rw [List.map_append, List.nodup_append] at hnd
  obtain ⟨d, hd, hde⟩ := h
  exact hnd.2.2 (List.mem_map_of_mem _ hd) (by simp [hde])

/-- Claim C1: email uniqueness is an invariant of the store. In every state
reachable from the empty store through the create, update and delete
handlers, the persisted contacts have pairwise distinct email values: the
unique constraint on the email column rejects any commit that would break
it, and every handler either commits a table with distinct emails or leaves
the persisted state untouched. -/
theorem email_uniqueness_invariant (s : Store) (h : Reachable s) :
    (s.contacts.map Contact.email).Nodup := by
  induction h with
  | init => simp [Store.empty]
  | create body fault _ ih => exact store_nodup_create _ body fault ih
  | update user_id body fault _ ih => exact store_nodup_update _ user_id body fault ih
  | delete user_id fault _ ih => exact store_nodup_delete _ user_id fault ih

/-- Witness for C1 at a concrete reachable state: after one successful
create from the empty store the emails are pairwise distinct. -/
theorem email_uniqueness_invariant_witness :
    (((create_contact Store.empty ⟨some "A", some "B", some "a@b.com"⟩ false).store.contacts.map
      Contact.email)).Nodup :=
  email_uniqueness_invariant _
    (Reachable.create ⟨some "A", some "B", some "a@b.com"⟩ false Reachable.init)

/-- Claim C2 counterexample: the claim quantifies over every body that is a
subset of the three fields, but a body whose email equals the email of a
different contact makes the commit raise IntegrityError, so the persisted
store is unchanged and the targeted row does not take the supplied email:
the update does not change the field present in the body. Here id 1 is
present in the store and the body supplies the email of contact 2. -/
theorem update_frame_counterexample :
    (⟨1, "A", "B", "a@x"⟩ : Contact) ∈ twoContacts.contacts ∧
    (updata_contact twoContacts 1 ⟨none, none, some "b@x"⟩ false).store.contacts ≠
      updatedContacts twoContacts 1 ⟨none, none, some "b@x"⟩ := by decide

/-- Claim C2 (amended): for every existing contact id and every request body
that is a subset of the three fields, provided the supplied email (when
present) does not belong to another contact and no unexpected storage fault
occurs, the update changes exactly the fields present in the body: the
persisted table becomes the original table with the body applied to the
target row only (present fields take the supplied values, absent fields
retain their prior values, the id and all other contacts are unchanged),
and the primary key counter is untouched. The distinct-ids and
distinct-emails hypotheses restate the table constraints (primary key,
unique email). -/
theorem update_frame_amended (s : Store) (uid : Nat) (b : RequestBody)
    (hids : (s.contacts.map Contact.id).Nodup)
    (hem : (s.contacts.map Contact.email).Nodup)
    (hpresent : ∃ c ∈ s.contacts, c.id = uid)
    (hfresh : ∀ c ∈ s.contacts, c.id ≠ uid → some c.email ≠ b.email) :
    (updata_contact s uid b false).store.contacts = updatedContacts s uid b ∧
    (updata_contact s uid b false).store.nextId = s.nextId := by
  obtain ⟨c, hfind⟩ := find_id_some hpresent
  have hnd : ((updatedContacts s uid b).map Contact.email).Nodup :=
    nodup_emails_updatedContacts uid b s.contacts hids hem hfresh
  have hcommit : commit (updatedContacts s uid b) false = .ok := by
    unfold commit
    rw [if_neg (not_not_intro hnd)]
    rfl
  unfold updata_contact
  rw [hfind]
  dsimp only
  rw [hcommit]
  exact ⟨rfl, rfl⟩

/-- Witness for the amended C2: updating the only contact with a fresh email
persists exactly the overridden row. -/
theorem update_frame_amended_witness :
    (updata_contact oneContact 1 ⟨none, none, some "new@x.com"⟩ false).store.contacts =
      updatedContacts oneContact 1 ⟨none, none, some "new@x.com"⟩ ∧
    (updata_contact oneContact 1 ⟨none, none, some "new@x.com"⟩ false).store.nextId =
      oneContact.nextId :=
  update_frame_amended oneContact 1 ⟨none, none, some "new@x.com"⟩ (by decide) (by decide)
    ⟨⟨1, "A", "B", "a@b.com"⟩, by decide, rfl⟩ (by decide)

/-- Claim C3 counterexample: not every storage failure is caught at the
handler boundary. Updating contact 1 with the email of contact 2 makes the
commit raise IntegrityError inside updata_contact, which has no exception
handling, so the storage exception escapes the handler. -/
theorem storage_exception_escape_counterexample :
    updata_contact twoContacts 1 ⟨none, none, some "b@x"⟩ false =
      .uncaught .integrityError twoContacts := by decide

/-- Claim C3 (amended): only the create handler catches storage failures,
rolling back and returning a generic message (400 for a constraint
violation, 500 for an unexpected storage error, with the persisted store
unchanged in both cases); the update and delete handlers catch nothing, so
any storage failure at their commit escapes the handler uncaught (with the
transaction rolled back by the database, leaving the store unchanged). -/
theorem storage_error_handling_amended (s : Store) (b : RequestBody) (uid : Nat) (f : Bool) :
    (∀ e st, create_contact s b f ≠ .uncaught e st) ∧
    (∀ m st, create_contact s b f = .resp 400 m st → st = s) ∧
    (∀ m st, create_contact s b f = .resp 500 m st → st = s) ∧
    ((∃ c ∈ s.contacts, c.id = uid) → commit (updatedContacts s uid b) f ≠ .ok →
      (updata_contact s uid b f = .uncaught .integrityError s ∨
        updata_contact s uid b f = .uncaught .sqlAlchemyError s)) ∧
    ((∃ c ∈ s.contacts, c.id = uid) →
      commit (s.contacts.filter (fun c => ¬ c.id = uid)) f ≠ .ok →
      (delete_contact s uid f = .uncaught .integrityError s ∨
        delete_contact s uid f = .uncaught .sqlAlchemyError s)) := by
  refine ⟨?_, ?_, ?_, ?_, ?_⟩
  · intro e st h
    simp only [create_contact] at h
    split at h
    · simp at h
    · split at h <;> simp at h
  · intro m st h
    simp only [create_contact] at h
    split at h
    · injection h with h1 h2 h3
      exact h3.symm
    · split at h
      · injection h with h1 h2 h3
        exact h3.symm
      · injection h with h1
        exact absurd h1 (by decide)
      · injection h with h1
        exact absurd h1 (by decide)
  · intro m st h
    simp only [create_contact] at h
    split at h
    · injection h with h1
      exact absurd h1 (by decide)
    · split at h
      · injection h with h1
        exact absurd h1 (by decide)
      · injection h with h1 h2 h3
        exact h3.symm
      · injection h with h1
        exact absurd h1 (by decide)
  · intro hpresent hfail
    obtain ⟨c, hfind⟩ := find_id_some hpresent
    simp only [updata_contact]
    rw [hfind]
    dsimp only
    cases hcm : commit (updatedContacts s uid b) f with
    | integrityError => exact Or.inl rfl
    | sqlAlchemyError => exact Or.inr rfl
    | ok => exact absurd hcm hfail
  · intro hpresent hfail
    obtain ⟨c, hfind⟩ := find_id_some hpresent
    simp only [delete_contact]
    rw [hfind]
    dsimp only
    cases hcm : commit (s.contacts.filter (fun c => ¬ c.id = uid)) f with
    | integrityError => exact Or.inl rfl
    | sqlAlchemyError => exact Or.inr rfl
    | ok => exact absurd hcm hfail

/-- Witness for the amended C3: a duplicate-email update on a concrete store
escapes as a storage exception with the store unchanged. -/
theorem storage_error_handling_amended_witness :
    updata_contact twoContacts 2 ⟨none, none, some "a@x"⟩ false =
      .uncaught .integrityError twoContacts ∨
    updata_contact twoContacts 2 ⟨none, none, some "a@x"⟩ false =
      .uncaught .sqlAlchemyError twoContacts :=
  (storage_error_handling_amended twoContacts ⟨none, none, some "a@x"⟩ 2 false).2.2.2.1
    ⟨⟨2, "C", "D", "b@x"⟩, by decide, rfl⟩ (by decide)

/-- Claim C4: for every store containing a contact with email e, a create
request carrying email e answers 400 and leaves the store unchanged (either
field validation fails, or the unique constraint raises IntegrityError at
commit, which the handler catches, rolls back and maps to 400); only the
first contact with that email is retained. -/
theorem duplicate_email_create_conflict (s : Store) (b : RequestBody) (f : Bool) (e : String)
    (hbe : b.email = some e) (hdup : ∃ c ∈ s.contacts, c.email = e) :
    (create_contact s b f).status = 400 ∧ (create_contact s b f).store = s := by
  by_cases hval : (falsy b.firstName || falsy b.lastName || falsy b.email) = true
  · simp only [create_contact]
    rw [if_pos hval]
    exact ⟨rfl, rfl⟩
  · have hcm : commit (s.contacts ++ [⟨s.nextId, b.firstName.getD "", b.lastName.getD "",
        b.email.getD ""⟩]) f = .integrityError := by
      unfold commit
      rw [if_pos]
      apply not_nodup_append_dup
      obtain ⟨c, hc, hce⟩ := hdup
      exact ⟨c, hc, by simp [hbe, hce]⟩
    simp only [create_contact]
    rw [if_neg hval]
    rw [hcm]
    exact ⟨rfl, rfl⟩

/-- Witness for C4: creating a second contact with an already stored email
on a concrete store yields 400 and keeps the store intact. -/
theorem duplicate_email_create_conflict_witness :
    (create_contact oneContact ⟨some "Z", some "Z", some "a@b.com"⟩ false).status = 400 ∧
    (create_contact oneContact ⟨some "Z", some "Z", some "a@b.com"⟩ false).store = oneContact :=
  duplicate_email_create_conflict oneContact ⟨some "Z", some "Z", some "a@b.com"⟩ false
    "a@b.com" rfl ⟨⟨1, "A", "B", "a@b.com"⟩, by decide, rfl⟩

/-- Claim C5: a create request in which any of the three fields is missing or
empty answers 400 with the validation message and persists nothing: the
store is returned unchanged. -/
theorem create_missing_field_rejected (s : Store) (b : RequestBody) (f : Bool)
    (h : falsy b.firstName ∨ falsy b.lastName ∨ falsy b.email) :
    create_contact s b f =
      .resp 400 "You must include a first name, lasat name and email" s := by
  have h2 : (falsy b.firstName || falsy b.lastName || falsy b.email) = true := by
    rcases h with h | h | h <;> simp [h]
  simp only [create_contact]
  rw [if_pos h2]

/-- Witness for C5: a create request with no last name on a concrete store
yields 400 and changes nothing. -/
theorem create_missing_field_rejected_witness :
    create_contact oneContact ⟨some "Z", none, some "c@d"⟩ false =
      .resp 400 "You must include a first name, lasat name and email" oneContact :=
  create_missing_field_rejected oneContact ⟨some "Z", none, some "c@d"⟩ false (by decide)

/-- Claim C6 is contradicted by the code at its own success path: for an id
present in the store, both PATCH and DELETE commit their change and then
apply jsonify to a Python set literal, which raises TypeError, so the client
receives 500, not 200 with a success message. The deletion itself does
persist: the contact disappears from subsequent list results. This evaluates
the handlers at the failing input (store with contact id 1). -/
theorem update_delete_success_returns_500 :
    updata_contact oneContact 1 RequestBody.empty false = .uncaught .typeError oneContact ∧
    (updata_contact oneContact 1 RequestBody.empty false).status = 500 ∧
    delete_contact oneContact 1 false = .uncaught .typeError ⟨[], 2⟩ ∧
    (delete_contact oneContact 1 false).status = 500 ∧
    get_contacts (delete_contact oneContact 1 false).store = [] := by decide

/-- Claim C7: for every id absent from the store, both the update and the
delete handler answer 400 (not 404) with the not-found message and leave the
store unchanged. -/
theorem unknown_id_rejected_400 (s : Store) (uid : Nat) (b : RequestBody) (f : Bool)
    (h : ∀ c ∈ s.contacts, c.id ≠ uid) :
    updata_contact s uid b f = .resp 400 "User not found" s ∧
    delete_contact s uid f = .resp 400 "User not found" s := by
  have hfind : s.contacts.find? (fun c => c.id = uid) = none := by
    rw [List.find?_eq_none]
    intro c hc
    simpa using h c hc
  constructor
  · simp only [updata_contact]
    rw [hfind]
  · simp only [delete_contact]
    rw [hfind]

/-- Witness for C7: updating and deleting a missing id on a concrete store
both answer 400 and change nothing. -/
theorem unknown_id_rejected_400_witness :
    updata_contact oneContact 7 RequestBody.empty false =
      .resp 400 "User not found" oneContact ∧
    delete_contact oneContact 7 false = .resp 400 "User not found" oneContact :=
  unknown_id_rejected_400 oneContact 7 RequestBody.empty false (by decide)

/-- Claim C8 counterexample: the non-empty-fields invariant fails. A state
holding a contact with an empty first name is reachable: create a valid
contact, then update it with a body whose firstName is the empty string; the
update handler performs no emptiness validation and the NOT NULL column
constraint does not reject empty strings, so the empty value commits. -/
theorem nonempty_fields_counterexample :
    Reachable badStore ∧ (⟨1, "", "B", "a@b.com"⟩ : Contact) ∈ badStore.contacts ∧
    ¬ fieldsNonEmpty (⟨1, "", "B", "a@b.com"⟩ : Contact) := by
  refine ⟨?_, by decide, by decide⟩
  have h := Reachable.update 1 ⟨some "", none, none⟩ false
    (Reachable.create ⟨some "A", some "B", some "a@b.com"⟩ false Reachable.init)
  have he : (updata_contact
      (create_contact Store.empty ⟨some "A", some "B", some "a@b.com"⟩ false).store
      1 ⟨some "", none, none⟩ false).store = badStore := by decide
  exact he ▸ h

/-- Claim C8 (amended): in every state reachable from the empty store through
create, delete, and those updates whose supplied fields are all non-empty,
every persisted contact has a non-empty first name, last name and email.
The restriction on update bodies is forced by the counterexample: the update
handler itself never validates emptiness, only create does. -/
theorem nonempty_fields_amended (s : Store) (h : ReachableNE s) :
    ∀ c ∈ s.contacts, fieldsNonEmpty c := by
  induction h with
  | init => simp [Store.empty]
  | create body fault _ ih => exact fields_create _ body fault ih
  | update user_id body fault hb _ ih => exact fields_update _ user_id body fault hb ih
  | delete user_id fault _ ih => exact fields_delete _ user_id fault ih

/-- Witness for the amended C8: the contact persisted by one successful
create has non-empty fields. -/
theorem nonempty_fields_amended_witness :
    fieldsNonEmpty (⟨1, "A", "B", "a@b.com"⟩ : Contact) :=
  nonempty_fields_amended _
    (ReachableNE.create ⟨some "A", some "B", some "a@b.com"⟩ false ReachableNE.init)
    ⟨1, "A", "B", "a@b.com"⟩ (by decide)

/-- Claim C9: a create request with all three fields populated and an email
not already stored answers 201 with the message User Created, the new row is
appended with the next primary key, and a subsequent GET /contacts lists the
new contact serialised with its id and three fields. The distinct-emails
hypothesis restates the unique column constraint on the prior table. -/
theorem create_success_and_listed (s : Store) (b : RequestBody)
    (hf : falsy b.firstName = false) (hl : falsy b.lastName = false)
    (he : falsy b.email = false)
    (hem : (s.contacts.map Contact.email).Nodup)
    (hfresh : ∀ c ∈ s.contacts, some c.email ≠ b.email) :
    create_contact s b false =
      .resp 201 "User Created"
        ⟨s.contacts ++ [⟨s.nextId, b.firstName.getD "", b.lastName.getD "", b.email.getD ""⟩],
          s.nextId + 1⟩ ∧
    Contact.to_json ⟨s.nextId, b.firstName.getD "", b.lastName.getD "", b.email.getD ""⟩ ∈
      get_contacts (create_contact s b false).store := by
  have hval : (falsy b.firstName || falsy b.lastName || falsy b.email) = true → False := by
    rw [hf, hl, he]
    simp
  have hnd : (((s.contacts ++ [⟨s.nextId, b.firstName.getD "", b.lastName.getD "",
      b.email.getD ""⟩]) : List Contact).map Contact.email).Nodup := by
    rw [List.map_append, List.nodup_append]
    refine ⟨hem, by simp, ?_⟩
    intro x hx hx2
    simp only [List.map_cons, List.map_nil, List.mem_singleton] at hx2
    obtain ⟨c, hc, hcx⟩ := List.mem_map.mp hx
    cases hbe : b.email with
    | none =>
        rw [hbe] at he
        exact absurd he (by simp [falsy])
    | some e =>
        exact hfresh c hc (by rw [hcx, hx2, hbe]; rfl)
  have hcm : commit (s.contacts ++ [⟨s.nextId, b.firstName.getD "", b.lastName.getD "",
      b.email.getD ""⟩]) false = .ok := by
    unfold commit
    rw [if_neg (not_not_intro hnd)]
    rfl
  have h1 : create_contact s b false =
      .resp 201 "User Created"
        ⟨s.contacts ++ [⟨s.nextId, b.firstName.getD "", b.lastName.getD "", b.email.getD ""⟩],
          s.nextId + 1⟩ := by
    simp only [create_contact]
    rw [if_neg hval]
    rw [hcm]
  refine ⟨h1, ?_⟩
  rw [h1]
  exact List.mem_map_of_mem _ (List.mem_append_right _ (List.mem_singleton_self _))

/-- Witness for C9, matching the example in the specification: the first
create on the empty store answers 201 and the contact is listed with id 1. -/
theorem create_success_and_listed_witness :
    create_contact Store.empty ⟨some "A", some "B", some "a@b.com"⟩ false =
      .resp 201 "User Created" ⟨[⟨1, "A", "B", "a@b.com"⟩], 2⟩ ∧
    Contact.to_json ⟨1, "A", "B", "a@b.com"⟩ ∈
      get_contacts (create_contact Store.empty ⟨some "A", some "B", some "a@b.com"⟩ false).store :=
  create_success_and_listed Store.empty ⟨some "A", some "B", some "a@b.com"⟩
    rfl rfl rfl (by decide) (by decide)

/-- Claim C10: for an id present in the store, a PATCH whose body is the
empty JSON object commits without error at the store level and leaves the
persisted state entirely unchanged: every field of the target row keeps its
prior value and every other contact is untouched. The outcome is the
uncaught typeError of the response-serialisation slip, which in this model
occurs strictly after a successful commit, and its store component is the
original store. The distinct-emails hypothesis restates the unique column
constraint on the table. -/
theorem empty_body_update_noop (s : Store) (uid : Nat)
    (hem : (s.contacts.map Contact.email).Nodup)
    (hpresent : ∃ c ∈ s.contacts, c.id = uid) :
    updata_contact s uid RequestBody.empty false = .uncaught .typeError s := by
  obtain ⟨c, hfind⟩ := find_id_some hpresent
  have hpend : updatedContacts s uid RequestBody.empty = s.contacts := by
    unfold updatedContacts
    have h2 : ∀ d ∈ s.contacts,
        (if d.id = uid then applyBody RequestBody.empty d else d) = id d := by
      intro d _
      by_cases hdu : d.id = uid
      · rw [if_pos hdu]
        rfl
      · rw [if_neg hdu]
        rfl
    rw [List.map_congr_left h2, List.map_id]
  have hcm : commit (updatedContacts s uid RequestBody.empty) false = .ok := by
    rw [hpend]
    unfold commit
    rw [if_neg (not_not_intro hem)]
    rfl
  simp only [updata_contact]
  rw [hfind]
  dsimp only
  rw [hcm, hpend]

/-- Witness for C10: an empty-body update of the only contact commits and
leaves the store as it was. -/
theorem empty_body_update_noop_witness :
    updata_contact oneContact 1 RequestBody.empty false = .uncaught .typeError oneContact :=
  empty_body_update_noop oneContact 1 (by decide) ⟨⟨1, "A", "B", "a@b.com"⟩, by decide, rfl⟩
